import Mathlib

-- Verification development for vispy/visuals/_scalable_textures.py.
--
-- Modelling conventions:
--   * numpy arrays are records of a shape, a flat list of element values and a
--     dtype tag; element values are exact rationals.
--   * elementwise arithmetic is exact rational arithmetic; the explicit dtype
--     conversions the source performs (np.float32(x), np.array(..., dtype=np.float32),
--     astype(np.float32)) are modelled by `toF32`, the IEEE-754 binary32
--     round-to-nearest-even rounding of a rational (values beyond the finite
--     binary32 range are not clamped to infinity; no input below uses them).
--   * methods that can raise return `Except Err _`; an error result carries no
--     state, matching the fact that the corresponding Python raise happens
--     before any attribute assignment in the translated code paths.
--   * in-place mutation of a caller's buffer is made explicit: `scale_data_on_cpu`
--     returns both the resulting buffer and the caller's buffer as it stands
--     after the call.
--   * warnings are modelled as boolean flags in result records.

/-- The numpy element types handled by the module (the dtypes appearing in the
`_texture_dtype_format` table plus the 32-bit integers it excludes). -/
inductive Dtype
  | uint8 | int8 | uint16 | int16 | uint32 | int32 | float32 | float64
deriving DecidableEq

/-- Python `np.issubdtype(dtype, np.floating)`. -/
def Dtype.isFloating : Dtype → Bool
  | .float32 => true
  | .float64 => true
  | _ => false

/-- Python `np.iinfo(dtype).min` as a rational. `np.iinfo` raises on floating dtypes;
the module only calls it on integer dtypes, so the value returned for floating
dtypes here is never consumed. -/
def Dtype.intMin : Dtype → ℚ
  | .uint8 => 0
  | .int8 => -128
  | .uint16 => 0
  | .int16 => -32768
  | .uint32 => 0
  | .int32 => -2147483648
  | _ => 0

/-- Python `np.iinfo(dtype).max` as a rational (unused for floating dtypes). -/
def Dtype.intMax : Dtype → ℚ
  | .uint8 => 255
  | .int8 => 127
  | .uint16 => 65535
  | .int16 => 32767
  | .uint32 => 4294967295
  | .int32 => 2147483647
  | _ => 0

/-- Modelled from the spec: `vispy.gloo.texture.should_cast_to_f32` is imported
by the module but its definition is not under src/. Per the spec all rescaled
samples end up as 32-bit floats and 64-bit floats lose precision by
downcasting, so exactly `float64` answers true (the narrower dtypes either are
already float32 or were converted by the copying step). Its warning side
effect is not tracked. -/
def should_cast_to_f32 (d : Dtype) : Bool := d = Dtype.float64

/-- A numpy array: shape, flat element values, dtype. -/
structure Arr where
  shape : List ℕ
  values : List ℚ
  dtype : Dtype
deriving DecidableEq

/-- Python `data.ndim`. -/
def Arr.ndim (a : Arr) : ℕ := a.shape.length

/-- Python `np.min(data)` (numpy raises on an empty array; empty arrays are outside
the modelled domain and get the junk value 0). -/
def arr_min (a : Arr) : ℚ :=
  match a.values with
  | [] => 0
  | v :: vs => vs.foldl min v

/-- Python `np.max(data)`. -/
def arr_max (a : Arr) : ℚ :=
  match a.values with
  | [] => 0
  | v :: vs => vs.foldl max v

/-- Fuel-driven floor of the base-2 logarithm of a natural number. -/
def nlog2F : ℕ → ℕ → ℕ
  | 0, _ => 0
  | f + 1, n => if n ≤ 1 then 0 else nlog2F f (n / 2) + 1

/-- Floor of the base-2 logarithm (0 at 0). -/
def nlog2 (n : ℕ) : ℕ := nlog2F n n

/-- Floor of the base-2 logarithm of the positive rational n / d. -/
def natPairLog2 (n d : ℕ) : ℤ :=
  let e0 : ℤ := (nlog2 n : ℤ) - (nlog2 d : ℤ)
  let ge : Bool :=
    if 0 ≤ e0 then decide (d * 2 ^ e0.toNat ≤ n) else decide (d ≤ n * 2 ^ (-e0).toNat)
  if ge then e0 else e0 - 1

/-- Round the fraction N / D (D positive) to the nearest natural number, ties
to even. -/
def rheNat (N D : ℕ) : ℕ :=
  let q := N / D
  let r := N % D
  if 2 * r < D then q
  else if D < 2 * r then q + 1
  else if q % 2 = 0 then q else q + 1

/-- Binary32 rounding data for the positive rational n / d: a pair (k, m) such
that the rounded value is m * 2 ^ k, where 2 ^ k is the spacing of binary32
values at that magnitude (minimum spacing 2 ^ (-149) for subnormals). -/
def f32Parts (n d : ℕ) : ℤ × ℕ :=
  let e := natPairLog2 n d
  let k : ℤ := max (e - 23) (-149)
  let N : ℕ := if 0 ≤ k then n else n * 2 ^ (-k).toNat
  let D : ℕ := if 0 ≤ k then d * 2 ^ k.toNat else d
  (k, rheNat N D)

/-- The rational 2 ^ k, for an integer exponent. -/
def pow2Q (k : ℤ) : ℚ :=
  if 0 ≤ k then ((2 ^ k.toNat : ℕ) : ℚ) else 1 / ((2 ^ (-k).toNat : ℕ) : ℚ)

/-- The IEEE-754 binary32 value nearest to a rational (round half to even):
the model of numpy's cast to np.float32. -/
def toF32 (q : ℚ) : ℚ :=
  if q = 0 then 0
  else
    let p := f32Parts q.num.natAbs q.den
    let mag : ℚ := (p.2 : ℚ) * pow2Q p.1
    if q < 0 then -mag else mag

/-- Division producing `none` in place of a non-finite IEEE result (inf or
NaN) when the divisor is zero. -/
def qdiv (x y : ℚ) : Option ℚ :=
  if y = 0 then none else some (x / y)

/-- The Python exceptions the translated code paths can raise. -/
inductive Err
  | invalidRange        -- ValueError from set_clim argument checking
  | typeError           -- TypeError: subscripting / unpacking None, etc.
  | indexError          -- IndexError: shape tuple indexed out of range
  | unsupportedFormat   -- ValueError: no internal texture format for dtype
  | attributeError      -- AttributeError: None.replace in _get_gl_tex_format
  | unboundLocal        -- UnboundLocalError in _get_texture_format_for_data
  | formatLocked        -- RuntimeError from _reformat_if_necessary
  | invalidOperation    -- ValueError: in-place rescale of non-float data
deriving DecidableEq

/-- The value of the `_clim` attribute: Python None, the string "auto", or a
two-element numeric tuple. -/
inductive Clim
  | unset
  | auto
  | pair (lo hi : ℚ)
deriving DecidableEq

/-- The argument accepted by `set_clim`: a string, or a sequence of numbers
(a non-iterable argument fails the tuple destructuring exactly like a sequence
of length other than two, raising the same error). -/
inductive ClimArg
  | str (s : String)
  | seq (xs : List ℚ)
deriving DecidableEq

/-- The `texture_format` / `internalformat` argument: Python None, a GL enum
string, or a numpy dtype object. -/
inductive FormatArg
  | nil
  | str (s : String)
  | dtype (d : Dtype)
deriving DecidableEq

/-- State carried by `_ScaledTextureMixin` itself. -/
structure BaseState where
  clim : Clim
  data_dtype : Option Dtype
deriving DecidableEq

/-- State carried by `CPUScaledTextureMixIn` (adds `_data_limits`). -/
structure CPUState where
  clim : Clim
  data_dtype : Option Dtype
  data_limits : Option (ℚ × ℚ)
deriving DecidableEq

/-- State of `GPUScaledTextureMixin` relevant to format handling: the
underlying texture's current internalformat and the `_auto_texture_format`
flag. -/
structure GPUState where
  clim : Clim
  data_dtype : Option Dtype
  internalformat : Option String
  auto_texture_format : Bool
deriving DecidableEq

/-- Result of constructing a GPU-scaled texture (`__init__` through
`init_scaling_texture`): the recorded data dtype, the resolved internalformat
handed to the texture base class, the `_auto_texture_format` flag, and whether
the "no data with auto format" warning was emitted. The representative array
is forwarded to the texture base class (external) and not recorded here. -/
structure GPUInit where
  data_dtype : Option Dtype
  internalformat : String
  auto_texture_format : Bool
  warned_auto_fallback : Bool
deriving DecidableEq

namespace ScaledTextureMixin

/-- Source `_ScaledTextureMixin.set_clim`: returns the "need texture upload" flag and
the updated state, or raises. The error results model a raise that happens
before `self._clim` is assigned, so the caller's state is unchanged. -/
def set_clim (st : BaseState) (clim : ClimArg) : Except Err (Bool × BaseState) :=
  match clim with
  | ClimArg.str s =>
    if s = "auto" then Except.ok (true, { st with clim := Clim.auto })
    else Except.error Err.invalidRange
  | ClimArg.seq xs =>
    match xs with
    | [cmin, cmax] => Except.ok (false, { st with clim := Clim.pair cmin cmax })
    | _ => Except.error Err.invalidRange

/-- Source `_ScaledTextureMixin._get_default_clims`. -/
def get_default_clims (data : Arr) : ℚ × ℚ :=
  if data.dtype.isFloating then (0, 1) else (data.dtype.intMin, data.dtype.intMax)

/-- Source `_ScaledTextureMixin._data_num_channels` for a texture of spatial rank
`ndim`. -/
def data_num_channels (ndim : ℕ) (data : Option Arr) (format : Option String) : ℕ :=
  if format = some "luminance" then 1
  else
    match data with
    | some a => if a.ndim = ndim + 1 then a.shape.getLastD 1 else 1
    | none => 4

/-- Source `_ScaledTextureMixin._create_rep_array`: a (10, ..., 10, num_channels)
array of zeros with the dtype of `data` (float32 when there is no data). -/
def create_rep_array (ndim : ℕ) (data : Option Arr) (format : Option String) : Arr :=
  let dtype := match data with | some a => a.dtype | none => Dtype.float32
  let num_channels := data_num_channels ndim data format
  { shape := List.replicate ndim 10 ++ [num_channels],
    values := List.replicate (10 ^ ndim * num_channels) 0,
    dtype := dtype }

end ScaledTextureMixin

namespace CPUScaledTextureMixIn

/-- Source `CPUScaledTextureMixIn._clim_outside_data_limits`. -/
def clim_outside_data_limits (st : CPUState) (cmin cmax : ℚ) : Bool :=
  match st.data_limits with
  | none => false
  | some (lo, hi) => decide (cmin < lo) || decide (hi < cmax)

/-- Source `CPUScaledTextureMixIn.set_clim`: as the base version, but a numeric pair
additionally requests a re-upload when it falls outside the recorded data
limits. -/
def set_clim (st : CPUState) (clim : ClimArg) : Except Err (Bool × CPUState) :=
  match clim with
  | ClimArg.str s =>
    if s = "auto" then Except.ok (true, { st with clim := Clim.auto })
    else Except.error Err.invalidRange
  | ClimArg.seq xs =>
    match xs with
    | [cmin, cmax] =>
      Except.ok (clim_outside_data_limits st cmin cmax, { st with clim := Clim.pair cmin cmax })
    | _ => Except.error Err.invalidRange

/-- Source `CPUScaledTextureMixIn.clim_normalized`: `(clim - range_min) / (range_max
- range_min)` componentwise. Unpacking an unset `_data_limits` or subscripting
a non-pair `_clim` raises; a zero denominator yields non-finite IEEE values,
modelled as `none` components. -/
def clim_normalized (st : CPUState) : Except Err (Option ℚ × Option ℚ) :=
  match st.data_limits with
  | none => Except.error Err.typeError
  | some (range_min, range_max) =>
    match st.clim with
    | Clim.pair clim_min clim_max =>
      Except.ok (qdiv (clim_min - range_min) (range_max - range_min),
                 qdiv (clim_max - range_min) (range_max - range_min))
    | _ => Except.error Err.typeError

/-- The clim if-block of `_scale_data_on_cpu`: divide by the common limit when
the limits coincide (doing nothing when that value is 0), otherwise shift and
scale linearly. -/
def apply_clim_scale (data : Arr) (clim : ℚ × ℚ) : Arr :=
  if clim.1 = clim.2 then
    if clim.1 ≠ 0 then { data with values := data.values.map (fun v => v / clim.1) } else data
  else
    { data with values := data.values.map (fun v => (v - clim.1) / (clim.2 - clim.1)) }

/-- The closing `should_cast_to_f32` block of `_scale_data_on_cpu`:
`data.astype(np.float32)` (a fresh buffer) when the dtype still needs it. -/
def final_f32_cast (data : Arr) : Arr :=
  if should_cast_to_f32 data.dtype then
    { data with values := data.values.map toF32, dtype := Dtype.float32 }
  else data

/-- Source `CPUScaledTextureMixIn._scale_data_on_cpu`. Returns the resulting buffer
together with the caller's buffer as it stands after the call: with
`copy = true` the arithmetic happens on a fresh float32 copy
(`np.array(data, dtype=np.float32, copy=True)`) and the caller's buffer is
untouched; with `copy = false` a non-floating buffer is rejected, and
otherwise the in-place operations land in the caller's buffer (the closing
astype, when it applies, allocates a new buffer and does not undo that). -/
def scale_data_on_cpu (data : Arr) (clim : ℚ × ℚ) (copy : Bool) :
    Except Err (Arr × Arr) :=
  if copy then
    let work : Arr := { shape := data.shape, values := data.values.map toF32,
                        dtype := Dtype.float32 }
    Except.ok (final_f32_cast (apply_clim_scale work clim), data)
  else if data.dtype.isFloating then
    let scaled := apply_clim_scale data clim
    Except.ok (final_f32_cast scaled, scaled)
  else Except.error Err.invalidOperation

/-- The test `data.ndim == self._ndim or data.shape[self._ndim] == 1` of
`scale_and_set_data`; indexing the shape tuple out of range raises. -/
def single_channel_check (ndim : ℕ) (data : Arr) : Except Err Bool :=
  if data.ndim = ndim then Except.ok true
  else if ndim < data.shape.length then Except.ok (decide (data.shape.getD ndim 0 = 1))
  else Except.error Err.indexError

/-- Resolution of the active clim inside `scale_and_set_data`: "auto" becomes
the data extrema, a pair is used as is, and subscripting an unset clim
raises. -/
def resolve_clim (clim : Clim) (data : Arr) : Except Err (ℚ × ℚ) :=
  match clim with
  | Clim.auto => Except.ok (arr_min data, arr_max data)
  | Clim.pair lo hi => Except.ok (lo, hi)
  | Clim.unset => Except.error Err.typeError

/-- Source `CPUScaledTextureMixIn.scale_and_set_data` (state part): records the data
dtype, resolves the clim, and for single-channel data casts the clim to
float32, rescales and records the clim as the data limits; multi-channel data
is forwarded unscaled with the default clims as data limits. Returns the new
state, the buffer handed to the texture upload, and the caller's buffer after
the call. -/
def scale_and_set_data (ndim : ℕ) (st : CPUState) (data : Arr) (copy : Bool) :
    Except Err (CPUState × Arr × Arr) :=
  let st1 : CPUState := { st with data_dtype := some data.dtype }
  match single_channel_check ndim data with
  | Except.error e => Except.error e
  | Except.ok true =>
    match resolve_clim st1.clim data with
    | Except.error e => Except.error e
    | Except.ok c =>
      let cf : ℚ × ℚ := (toF32 c.1, toF32 c.2)
      match scale_data_on_cpu data cf copy with
      | Except.error e => Except.error e
      | Except.ok (out, after) =>
        Except.ok ({ st1 with clim := Clim.pair cf.1 cf.2, data_limits := some cf },
                   out, after)
  | Except.ok false =>
    let dl := ScaledTextureMixin.get_default_clims data
    let clim2 := match st1.clim with
                 | Clim.auto => Clim.pair dl.1 dl.2
                 | c => c
    Except.ok ({ st1 with clim := clim2, data_limits := some dl }, data, data)

end CPUScaledTextureMixIn

namespace GPUScaledTextureMixin

/-- The class-level `_texture_dtype_format` table (32-bit integer dtypes are
commented out in the source: unsupported). -/
def texture_dtype_format : Dtype → Option String
  | Dtype.float32 => some "r32f"
  | Dtype.float64 => some "r32f"
  | Dtype.uint8 => some "r8"
  | Dtype.uint16 => some "r16"
  | Dtype.int8 => some "r8"
  | Dtype.int16 => some "r16"
  | Dtype.uint32 => none
  | Dtype.int32 => none

/-- Source `GPUScaledTextureMixin._handle_auto_texture_format`: returns the new
texture format, whether `_auto_texture_format` was set, and whether the
"no data provided, falling back to CPU scaling" warning was emitted. -/
def handle_auto_texture_format (texture_format : FormatArg) (data : Option Arr) :
    FormatArg × Bool × Bool :=
  match texture_format with
  | FormatArg.str s =>
    if s = "auto" then
      match data with
      | none => (FormatArg.nil, false, true)
      | some a => (FormatArg.dtype a.dtype, true, false)
    else (FormatArg.str s, false, false)
  | tf => (tf, false, false)

/-- Python `'rgba'[:num_channels]`. -/
def rgba_slice (num_channels : ℕ) : List Char :=
  ['r', 'g', 'b', 'a'].take num_channels

/-- Python `str.replace('r', repl)`: every occurrence replaced. -/
def replace_r_chars (cs : List Char) (repl : List Char) : List Char :=
  match cs with
  | [] => []
  | c :: rest => (if c = 'r' then repl else [c]) ++ replace_r_chars rest repl

/-- Python `texture_format.replace('r', 'rgba'[:num_channels])`. -/
def expand_r (s : String) (num_channels : ℕ) : String :=
  String.mk (replace_r_chars s.data (rgba_slice num_channels))

/-- Source `GPUScaledTextureMixin._get_gl_tex_format`: a dtype argument is looked up
in the table (ValueError when absent); the resulting or given string has its
'r' placeholder expanded to the channel count; a None argument reaches
`None.replace` and raises AttributeError. -/
def get_gl_tex_format (texture_format : FormatArg) (num_channels : ℕ) :
    Except Err String :=
  match texture_format with
  | FormatArg.dtype d =>
    match texture_dtype_format d with
    | none => Except.error Err.unsupportedFormat
    | some base => Except.ok (expand_r base num_channels)
  | FormatArg.str s => Except.ok (expand_r s num_channels)
  | FormatArg.nil => Except.error Err.attributeError

/-- Source `_ScaledTextureMixin.init_scaling_texture` specialised by the GPU mixin's
`_get_texture_format_for_data`: records the data dtype, builds the
representative array BEFORE format resolution (so format resolution always
sees a representative array, never the absence of data), then resolves the
internalformat. A missing internalformat argument leaves the local variable
unbound in `_get_texture_format_for_data` (UnboundLocalError). -/
def init_scaling_texture (ndim : ℕ) (data : Option Arr) (format : Option String)
    (internalformat : FormatArg) : Except Err GPUInit :=
  let data_dtype := data.map Arr.dtype
  let rep := ScaledTextureMixin.create_rep_array ndim data format
  match internalformat with
  | FormatArg.nil => Except.error Err.unboundLocal
  | ifmt =>
    let num_channels := ScaledTextureMixin.data_num_channels ndim (some rep) format
    let r := handle_auto_texture_format ifmt (some rep)
    match get_gl_tex_format r.1 num_channels with
    | Except.error e => Except.error e
    | Except.ok fmt => Except.ok ⟨data_dtype, fmt, r.2.1, r.2.2⟩

/-- Source `GPUScaledTextureMixin._compute_clim`. The single-channel test is
`data.ndim == 2 or data.shape[2] == 1` with a hard-coded 2 (it does not use
the texture's spatial rank, unlike the CPU strategy's test). -/
def compute_clim (clim : Clim) (data : Arr) : Except Err Clim :=
  match (if data.ndim = 2 then Except.ok true
         else if 2 < data.shape.length then Except.ok (decide (data.shape.getD 2 0 = 1))
         else Except.error Err.indexError : Except Err Bool) with
  | Except.error e => Except.error e
  | Except.ok true =>
    match clim with
    | Clim.auto => Except.ok (Clim.pair (toF32 (arr_min data)) (toF32 (arr_max data)))
    | Clim.pair lo hi => Except.ok (Clim.pair (toF32 lo) (toF32 hi))
    | Clim.unset => Except.error Err.typeError
  | Except.ok false =>
    match clim with
    | Clim.auto =>
      let dl := ScaledTextureMixin.get_default_clims data
      Except.ok (Clim.pair dl.1 dl.2)
    | c => Except.ok c

/-- Source `GPUScaledTextureMixin._internalformat_will_change`. -/
def internalformat_will_change (ndim : ℕ) (st : GPUState) (data : Arr) :
    Except Err Bool :=
  match get_gl_tex_format (FormatArg.dtype data.dtype)
      ((ScaledTextureMixin.create_rep_array ndim (some data) none).shape.getLastD 0) with
  | Except.error e => Except.error e
  | Except.ok new_if => Except.ok (decide (some new_if ≠ st.internalformat))

/-- Source `GPUScaledTextureMixin._reformat_if_necessary`: no-op when the
internalformat would not change; resize with the new format (returned as the
performed resize action, which also updates the texture's internalformat) when
`_auto_texture_format` is set; RuntimeError otherwise. -/
def reformat_if_necessary (ndim : ℕ) (st : GPUState) (data : Arr) :
    Except Err (GPUState × Option (List ℕ × String)) :=
  match internalformat_will_change ndim st data with
  | Except.error e => Except.error e
  | Except.ok false => Except.ok (st, none)
  | Except.ok true =>
    if st.auto_texture_format then
      match get_gl_tex_format (FormatArg.dtype data.dtype)
          ((ScaledTextureMixin.create_rep_array ndim (some data) none).shape.getLastD 0) with
      | Except.error e => Except.error e
      | Except.ok internalformat =>
        Except.ok ({ st with internalformat := some internalformat },
                   some (data.shape, internalformat))
    else Except.error Err.formatLocked

end GPUScaledTextureMixin

deriving instance DecidableEq for Except

-- Helper lemmas shared by claim theorems below.

/-- Binary32 rounding parts of 1. -/
theorem f32Parts_1 : f32Parts 1 1 = (-23, 8388608) := by decide

/-- Binary32 rounding parts of 3. -/
theorem f32Parts_3 : f32Parts 3 1 = (-22, 12582912) := by decide

/-- Binary32 rounding parts of 4. -/
theorem f32Parts_4 : f32Parts 4 1 = (-21, 8388608) := by decide

/-- Binary32 rounding parts of 5. -/
theorem f32Parts_5 : f32Parts 5 1 = (-21, 10485760) := by decide

/-- Binary32 rounding parts of 2^24 + 1, the smallest positive integer not
representable in binary32: its significand needs 25 bits, and the
round-to-nearest-even step drops it to 2^24. -/
theorem f32Parts_16777217 : f32Parts 16777217 1 = (1, 8388608) := by decide

/-- The value 1 is exactly representable in binary32. -/
theorem toF32_one : toF32 1 = 1 := by
  rw [toF32]
  norm_num [f32Parts_1, pow2Q, show ((23:ℤ)).toNat = 23 from rfl]

/-- The value 3 is exactly representable in binary32. -/
theorem toF32_three : toF32 3 = 3 := by
  rw [toF32]
  norm_num [f32Parts_3, pow2Q, show ((22:ℤ)).toNat = 22 from rfl]

/-- The value 4 is exactly representable in binary32. -/
theorem toF32_four : toF32 4 = 4 := by
  rw [toF32]
  norm_num [f32Parts_4, pow2Q, show ((21:ℤ)).toNat = 21 from rfl]

/-- The value 5 is exactly representable in binary32. -/
theorem toF32_five : toF32 5 = 5 := by
  rw [toF32]
  norm_num [f32Parts_5, pow2Q, show ((21:ℤ)).toNat = 21 from rfl]

/-- np.float32(16777217) loses the unit: the nearest binary32 value is
16777216. -/
theorem toF32_16777217 : toF32 16777217 = 16777216 := by
  rw [toF32]
  norm_num [f32Parts_16777217, pow2Q, show ((1:ℤ)).toNat = 1 from rfl]

/-- Lemma: `apply_clim_scale` never changes the dtype. -/
theorem apply_clim_scale_dtype (data : Arr) (clim : ℚ × ℚ) :
    (CPUScaledTextureMixIn.apply_clim_scale data clim).dtype = data.dtype := by
  unfold CPUScaledTextureMixIn.apply_clim_scale
  split_ifs <;> rfl

/-- Lemma: `final_f32_cast` is the identity on float32 buffers. -/
theorem final_f32_cast_float32 (a : Arr) (h : a.dtype = Dtype.float32) :
    CPUScaledTextureMixIn.final_f32_cast a = a := by
  unfold CPUScaledTextureMixIn.final_f32_cast
  simp [should_cast_to_f32, h]

/-- float32 buffers need no closing cast. -/
theorem should_cast_to_f32_f32 : should_cast_to_f32 Dtype.float32 = false := rfl

/-- float64 buffers are downcast by the closing astype. -/
theorem should_cast_to_f32_f64 : should_cast_to_f32 Dtype.float64 = true := rfl

/-- Claim C5 (amended): `set_clim` returns true exactly when the NEW range is
the "auto" sentinel; for a numeric pair the base strategy returns false and
the CPU strategy returns the outside-data-limits check; the previous value of
the range does not enter the result. -/
theorem set_clim_upload_flag (sb : BaseState) (sc : CPUState) (a b : ℚ) :
    ScaledTextureMixin.set_clim sb (ClimArg.str "auto") =
      Except.ok (true, { sb with clim := Clim.auto }) ∧
    CPUScaledTextureMixIn.set_clim sc (ClimArg.str "auto") =
      Except.ok (true, { sc with clim := Clim.auto }) ∧
    ScaledTextureMixin.set_clim sb (ClimArg.seq [a, b]) =
      Except.ok (false, { sb with clim := Clim.pair a b }) ∧
    CPUScaledTextureMixIn.set_clim sc (ClimArg.seq [a, b]) =
      Except.ok (CPUScaledTextureMixIn.clim_outside_data_limits sc a b,
                 { sc with clim := Clim.pair a b }) :=
  ⟨rfl, rfl, rfl, rfl⟩

/-- Claim C5, counterexample: with the stored range being the "auto" sentinel
("the range WAS auto"), setting a numeric range returns false, not true as the
claim states (data limits are unset here, so the CPU strategy's extra check
does not fire either; the shared core shown has no such check at all). -/
theorem set_clim_previous_auto_returns_false :
    ScaledTextureMixin.set_clim ⟨Clim.auto, none⟩ (ClimArg.seq [1, 2]) =
      Except.ok (false, ⟨Clim.pair 1 2, none⟩) ∧
    CPUScaledTextureMixIn.set_clim ⟨Clim.auto, none, none⟩ (ClimArg.seq [1, 2]) =
      Except.ok (false, ⟨Clim.pair 1 2, none, none⟩) :=
  ⟨rfl, rfl⟩

/-- Claim C8: a string other than "auto", or a sequence that does not
destructure into exactly two elements, is rejected by `set_clim` (shared core
and CPU override) with the invalid-range error; the error is raised before
any assignment, so the state is unchanged (the error result carries no
state). -/
theorem set_clim_invalid_spec_rejected (sb : BaseState) (sc : CPUState)
    (s : String) (xs : List ℚ) (hs : s ≠ "auto") (hx : xs.length ≠ 2) :
    ScaledTextureMixin.set_clim sb (ClimArg.str s) = Except.error Err.invalidRange ∧
    CPUScaledTextureMixIn.set_clim sc (ClimArg.str s) = Except.error Err.invalidRange ∧
    ScaledTextureMixin.set_clim sb (ClimArg.seq xs) = Except.error Err.invalidRange ∧
    CPUScaledTextureMixIn.set_clim sc (ClimArg.seq xs) = Except.error Err.invalidRange := by
  refine ⟨?_, ?_, ?_, ?_⟩
  · simp [ScaledTextureMixin.set_clim, hs]
  · simp [CPUScaledTextureMixIn.set_clim, hs]
  · cases xs with
    | nil => rfl
    | cons a t =>
      cases t with
      | nil => rfl
      | cons b t2 =>
        cases t2 with
        | nil => exact absurd rfl hx
        | cons c t3 => rfl
  · cases xs with
    | nil => rfl
    | cons a t =>
      cases t with
      | nil => rfl
      | cons b t2 =>
        cases t2 with
        | nil => exact absurd rfl hx
        | cons c t3 => rfl

/-- Claim C8, witness: the spec's own examples "bogus" and (1, 2, 3). -/
theorem set_clim_invalid_spec_rejected_witness :
    ScaledTextureMixin.set_clim ⟨Clim.unset, none⟩ (ClimArg.str "bogus") =
      Except.error Err.invalidRange ∧
    CPUScaledTextureMixIn.set_clim ⟨Clim.unset, none, none⟩ (ClimArg.str "bogus") =
      Except.error Err.invalidRange ∧
    ScaledTextureMixin.set_clim ⟨Clim.unset, none⟩ (ClimArg.seq [1, 2, 3]) =
      Except.error Err.invalidRange ∧
    CPUScaledTextureMixIn.set_clim ⟨Clim.unset, none, none⟩ (ClimArg.seq [1, 2, 3]) =
      Except.error Err.invalidRange :=
  set_clim_invalid_spec_rejected ⟨Clim.unset, none⟩ ⟨Clim.unset, none, none⟩
    "bogus" [1, 2, 3] (by decide) (by decide)

/-- Claim C9: before any upload has recorded data limits, the CPU strategy's
`set_clim` answers false (no re-upload) for every numeric two-element
range. -/
theorem cpu_set_clim_no_data_limits_false (st : CPUState) (a b : ℚ)
    (h : st.data_limits = none) :
    CPUScaledTextureMixIn.set_clim st (ClimArg.seq [a, b]) =
      Except.ok (false, { st with clim := Clim.pair a b }) := by
  simp [CPUScaledTextureMixIn.set_clim, CPUScaledTextureMixIn.clim_outside_data_limits, h]

/-- Claim C9, witness. -/
theorem cpu_set_clim_no_data_limits_false_witness :
    CPUScaledTextureMixIn.set_clim ⟨Clim.auto, none, none⟩ (ClimArg.seq [10, 20]) =
      Except.ok (false, ⟨Clim.pair 10 20, none, none⟩) :=
  cpu_set_clim_no_data_limits_false ⟨Clim.auto, none, none⟩ 10 20 rfl

/-- Claim C10: with `copy` requested, `_scale_data_on_cpu` works on a fresh
float32 copy — the caller's buffer is returned untouched — and the resulting
buffer has float32 dtype, for every input dtype and every range. -/
theorem cpu_rescale_copy_fresh_float32 (data : Arr) (clim : ℚ × ℚ) :
    ∃ out, CPUScaledTextureMixIn.scale_data_on_cpu data clim true =
        Except.ok (out, data) ∧ out.dtype = Dtype.float32 := by
  refine ⟨_, rfl, ?_⟩
  rw [final_f32_cast_float32 _ (by rw [apply_clim_scale_dtype])]
  rw [apply_clim_scale_dtype]

/-- Claim C1 (amended): the helper `_handle_auto_texture_format`, when handed
the "auto" hint together with no data, emits the fallback warning and returns
no format decision without raising; but at construction the representative
array is created BEFORE format resolution, so with no data and
`internalformat='auto'` the resolution sees a float32 representative array:
no warning is emitted, the format resolves to "rgba32f" and automatic format
renegotiation is enabled (shown for both the 2-D and 3-D variants). -/
theorem gpu_auto_format_no_data_construction :
    GPUScaledTextureMixin.handle_auto_texture_format (FormatArg.str "auto") none =
      (FormatArg.nil, false, true) ∧
    GPUScaledTextureMixin.init_scaling_texture 2 none none (FormatArg.str "auto") =
      Except.ok ⟨none, "rgba32f", true, false⟩ ∧
    GPUScaledTextureMixin.init_scaling_texture 3 none none (FormatArg.str "auto") =
      Except.ok ⟨none, "rgba32f", true, false⟩ := by
  refine ⟨rfl, ?_, ?_⟩ <;> decide

/-- Claim C1, counterexample: constructing with `formatHint="auto"` and no
data does NOT warn and does NOT leave the format undecided — the
`warned_auto_fallback` flag of the construction result is false and the
internalformat comes out as "rgba32f" (from the float32 representative array
substituted for the missing data). -/
theorem gpu_auto_format_no_data_claim_false :
    GPUScaledTextureMixin.init_scaling_texture 2 none none (FormatArg.str "auto") =
      Except.ok { data_dtype := none, internalformat := "rgba32f",
                  auto_texture_format := true, warned_auto_fallback := false } := by
  decide

/-- Claim C2, code bug: `_compute_clim` tests `data.ndim == 2 or
data.shape[2] == 1` with a hard-coded 2 where the CPU strategy's counterpart
uses `self._ndim`; for the 3-D variant a single-channel volume of shape
(2, 2, 2) with clim "auto" therefore falls into the multi-channel branch and
resolves to the default clims (0, 1) instead of the data extrema (2, 7). -/
theorem gpu_compute_clim_3d_single_channel_bug :
    GPUScaledTextureMixin.compute_clim Clim.auto
      ⟨[2, 2, 2], [2, 7, 3, 4, 5, 6, 2, 3], Dtype.float32⟩ =
      Except.ok (Clim.pair 0 1) ∧
    arr_min ⟨[2, 2, 2], [2, 7, 3, 4, 5, 6, 2, 3], Dtype.float32⟩ = 2 ∧
    arr_max ⟨[2, 2, 2], [2, 7, 3, 4, 5, 6, 2, 3], Dtype.float32⟩ = 7 ∧
    Clim.pair (0 : ℚ) 1 ≠ Clim.pair 2 7 := by
  refine ⟨?_, ?_, ?_, ?_⟩
  · simp [GPUScaledTextureMixin.compute_clim, Arr.ndim,
          ScaledTextureMixin.get_default_clims, Dtype.isFloating]
  · norm_num [arr_min, List.foldl, min_def]
  · norm_num [arr_max, List.foldl, max_def]
  · simp

/-- Claim C6: `_reformat_if_necessary` is a no-op when the format implied by
the incoming data equals the texture's current internalformat; when it
differs it resizes the underlying resource with the new format if
`_auto_texture_format` is set, and raises (with no resize performed) if it is
not. -/
theorem gpu_reformat_cases (ndim : ℕ) (st : GPUState) (data : Arr) (nf : String)
    (hnf : GPUScaledTextureMixin.get_gl_tex_format (FormatArg.dtype data.dtype)
      ((ScaledTextureMixin.create_rep_array ndim (some data) none).shape.getLastD 0) =
      Except.ok nf) :
    (st.internalformat = some nf →
      GPUScaledTextureMixin.reformat_if_necessary ndim st data = Except.ok (st, none)) ∧
    (st.internalformat ≠ some nf → st.auto_texture_format = true →
      GPUScaledTextureMixin.reformat_if_necessary ndim st data =
        Except.ok ({ st with internalformat := some nf }, some (data.shape, nf))) ∧
    (st.internalformat ≠ some nf → st.auto_texture_format = false →
      GPUScaledTextureMixin.reformat_if_necessary ndim st data =
        Except.error Err.formatLocked) := by
  have hwc : GPUScaledTextureMixin.internalformat_will_change ndim st data =
      Except.ok (decide (some nf ≠ st.internalformat)) := by
    unfold GPUScaledTextureMixin.internalformat_will_change
    rw [hnf]
  refine ⟨?_, ?_, ?_⟩
  · intro h1
    unfold GPUScaledTextureMixin.reformat_if_necessary
    rw [hwc]
    simp [h1]
  · intro h1 h2
    have h1' : some nf ≠ st.internalformat := fun h => h1 h.symm
    unfold GPUScaledTextureMixin.reformat_if_necessary
    rw [hwc]
    rw [hnf]
    simp [h1', h2]
  · intro h1 h2
    have h1' : some nf ≠ st.internalformat := fun h => h1 h.symm
    unfold GPUScaledTextureMixin.reformat_if_necessary
    rw [hwc]
    simp [h1', h2]

/-- Claim C6, witness: a 2-D texture receiving uint8 single-channel data
(resolved format "r8") in the three situations — format unchanged, format
change with the auto flag, format change without it. -/
theorem gpu_reformat_cases_witness :
    GPUScaledTextureMixin.reformat_if_necessary 2
      ⟨Clim.unset, none, some "r8", false⟩ ⟨[5, 5], [0], Dtype.uint8⟩ =
      Except.ok (⟨Clim.unset, none, some "r8", false⟩, none) ∧
    GPUScaledTextureMixin.reformat_if_necessary 2
      ⟨Clim.unset, none, some "r32f", true⟩ ⟨[5, 5], [0], Dtype.uint8⟩ =
      Except.ok (⟨Clim.unset, none, some "r8", true⟩, some ([5, 5], "r8")) ∧
    GPUScaledTextureMixin.reformat_if_necessary 2
      ⟨Clim.unset, none, some "r32f", false⟩ ⟨[5, 5], [0], Dtype.uint8⟩ =
      Except.error Err.formatLocked :=
  ⟨(gpu_reformat_cases 2 ⟨Clim.unset, none, some "r8", false⟩
      ⟨[5, 5], [0], Dtype.uint8⟩ "r8" (by decide)).1 rfl,
   (gpu_reformat_cases 2 ⟨Clim.unset, none, some "r32f", true⟩
      ⟨[5, 5], [0], Dtype.uint8⟩ "r8" (by decide)).2.1 (by decide) rfl,
   (gpu_reformat_cases 2 ⟨Clim.unset, none, some "r32f", false⟩
      ⟨[5, 5], [0], Dtype.uint8⟩ "r8" (by decide)).2.2 (by decide) rfl⟩

/-- Claim C3 (amended): after `scale_and_set_data` on single-channel floating
data with clim "auto", the recorded data limits are the float32 roundings of
the data extrema; they equal the EXACT extrema whenever those are
binary32-representable — in particular for every float32 input. -/
theorem cpu_auto_clim_data_limits_f32 (ndim : ℕ) (st : CPUState) (data : Arr)
    (copy : Bool) (hauto : st.clim = Clim.auto) (hsingle : data.ndim = ndim)
    (hfloat : data.dtype.isFloating = true)
    (hmin : toF32 (arr_min data) = arr_min data)
    (hmax : toF32 (arr_max data) = arr_max data) :
    ∃ st' out after,
      CPUScaledTextureMixIn.scale_and_set_data ndim st data copy =
        Except.ok (st', out, after) ∧
      st'.data_limits = some (arr_min data, arr_max data) := by
  cases copy with
  | true =>
    have hrun : CPUScaledTextureMixIn.scale_and_set_data ndim st data true =
        Except.ok ({ clim := Clim.pair (arr_min data) (arr_max data),
                     data_dtype := some data.dtype,
                     data_limits := some (arr_min data, arr_max data) },
          CPUScaledTextureMixIn.final_f32_cast (CPUScaledTextureMixIn.apply_clim_scale
            ⟨data.shape, data.values.map toF32, Dtype.float32⟩
            (arr_min data, arr_max data)), data) := by
      simp [CPUScaledTextureMixIn.scale_and_set_data,
            CPUScaledTextureMixIn.single_channel_check, hsingle, hauto,
            CPUScaledTextureMixIn.resolve_clim, hmin, hmax,
            CPUScaledTextureMixIn.scale_data_on_cpu]
    exact ⟨_, _, _, hrun, rfl⟩
  | false =>
    have hrun : CPUScaledTextureMixIn.scale_and_set_data ndim st data false =
        Except.ok ({ clim := Clim.pair (arr_min data) (arr_max data),
                     data_dtype := some data.dtype,
                     data_limits := some (arr_min data, arr_max data) },
          CPUScaledTextureMixIn.final_f32_cast (CPUScaledTextureMixIn.apply_clim_scale
            data (arr_min data, arr_max data)),
          CPUScaledTextureMixIn.apply_clim_scale data (arr_min data, arr_max data)) := by
      simp [CPUScaledTextureMixIn.scale_and_set_data,
            CPUScaledTextureMixIn.single_channel_check, hsingle, hauto,
            CPUScaledTextureMixIn.resolve_clim, hmin, hmax,
            CPUScaledTextureMixIn.scale_data_on_cpu, hfloat]
    exact ⟨_, _, _, hrun, rfl⟩

/-- Claim C3, witness: a float32 2-D array with extrema 1 and 4. -/
theorem cpu_auto_clim_data_limits_f32_witness :
    ∃ st' out after,
      CPUScaledTextureMixIn.scale_and_set_data 2 ⟨Clim.auto, none, none⟩
        ⟨[2, 2], [1, 3, 4, 1], Dtype.float32⟩ true = Except.ok (st', out, after) ∧
      st'.data_limits = some (arr_min ⟨[2, 2], [1, 3, 4, 1], Dtype.float32⟩,
                              arr_max ⟨[2, 2], [1, 3, 4, 1], Dtype.float32⟩) :=
  cpu_auto_clim_data_limits_f32 2 ⟨Clim.auto, none, none⟩
    ⟨[2, 2], [1, 3, 4, 1], Dtype.float32⟩ true rfl rfl rfl
    (by rw [show arr_min ⟨[2, 2], [1, 3, 4, 1], Dtype.float32⟩ = 1 by
          norm_num [arr_min, List.foldl, min_def]]
        exact toF32_one)
    (by rw [show arr_max ⟨[2, 2], [1, 3, 4, 1], Dtype.float32⟩ = 4 by
          norm_num [arr_max, List.foldl, max_def]]
        exact toF32_four)

/-- Claim C3, counterexample: the float64 single-channel array [16777217.0]
with clim "auto". Its exact extrema are (16777217, 16777217), but uploading
stores DataRange (16777216, 16777216): the np.float32 cast of the computed
clim loses the unit, so the stored range does not equal the exact (min, max)
of the input. -/
theorem cpu_auto_clim_data_limits_not_exact_float64 :
    CPUScaledTextureMixIn.scale_and_set_data 2 ⟨Clim.auto, none, none⟩
      ⟨[1, 1], [16777217], Dtype.float64⟩ true =
      Except.ok (⟨Clim.pair 16777216 16777216, some Dtype.float64,
                  some (16777216, 16777216)⟩,
                 ⟨[1, 1], [1], Dtype.float32⟩, ⟨[1, 1], [16777217], Dtype.float64⟩) ∧
    arr_min ⟨[1, 1], [16777217], Dtype.float64⟩ = 16777217 ∧
    arr_max ⟨[1, 1], [16777217], Dtype.float64⟩ = 16777217 ∧
    ((16777216 : ℚ), (16777216 : ℚ)) ≠ ((16777217 : ℚ), (16777217 : ℚ)) := by
  refine ⟨?_, ?_, ?_, ?_⟩
  · norm_num [CPUScaledTextureMixIn.scale_and_set_data,
              CPUScaledTextureMixIn.single_channel_check,
              CPUScaledTextureMixIn.resolve_clim,
              CPUScaledTextureMixIn.scale_data_on_cpu,
              CPUScaledTextureMixIn.apply_clim_scale,
              CPUScaledTextureMixIn.final_f32_cast,
              should_cast_to_f32_f32, should_cast_to_f32_f64,
              arr_min, arr_max, List.foldl, Arr.ndim, toF32_16777217]
  · norm_num [arr_min, List.foldl]
  · norm_num [arr_max, List.foldl]
  · norm_num

/-- Claim C4 (amended): for a degenerate range (k, k), `_scale_data_on_cpu`
succeeds, dividing all values by k when k is nonzero and applying no
arithmetic when k is exactly 0 — stated relative to the original values for
inputs whose values are binary32-representable and which are either copied
(any dtype) or already float32 (so that the float32 conversions the copy and
the closing astype perform are the identity). -/
theorem cpu_rescale_degenerate_range (data : Arr) (k : ℚ) (copy : Bool)
    (hrep : ∀ v ∈ data.values, toF32 v = v)
    (hnc : copy = true ∨ data.dtype = Dtype.float32) :
    ∃ out after, CPUScaledTextureMixIn.scale_data_on_cpu data (k, k) copy =
        Except.ok (out, after) ∧
      out.values = (if k = 0 then data.values
                    else data.values.map (fun v => v / k)) := by
  have hw : data.values.map toF32 = data.values := by
    calc data.values.map toF32 = data.values.map id := List.map_congr_left hrep
    _ = data.values := List.map_id data.values
  cases copy with
  | true =>
    refine ⟨_, _, rfl, ?_⟩
    rw [final_f32_cast_float32 _ (by rw [apply_clim_scale_dtype])]
    by_cases hk : k = 0
    · simp [CPUScaledTextureMixIn.apply_clim_scale, hk, hw]
    · simp [CPUScaledTextureMixIn.apply_clim_scale, hk, hw]
  | false =>
    have hd : data.dtype = Dtype.float32 := by
      rcases hnc with h | h
      · cases h
      · exact h
    have hrun : CPUScaledTextureMixIn.scale_data_on_cpu data (k, k) false =
        Except.ok (CPUScaledTextureMixIn.final_f32_cast
          (CPUScaledTextureMixIn.apply_clim_scale data (k, k)),
          CPUScaledTextureMixIn.apply_clim_scale data (k, k)) := by
      simp [CPUScaledTextureMixIn.scale_data_on_cpu, hd, Dtype.isFloating]
    refine ⟨_, _, hrun, ?_⟩
    rw [final_f32_cast_float32 _ (by rw [apply_clim_scale_dtype, hd])]
    by_cases hk : k = 0
    · simp [CPUScaledTextureMixIn.apply_clim_scale, hk]
    · simp [CPUScaledTextureMixIn.apply_clim_scale, hk]

/-- Claim C4, witness: float32 values [3, 4] divided by the degenerate range
(2, 2) under copy. -/
theorem cpu_rescale_degenerate_range_witness :
    ∃ out after, CPUScaledTextureMixIn.scale_data_on_cpu
        ⟨[2], [3, 4], Dtype.float32⟩ (2, 2) true = Except.ok (out, after) ∧
      out.values = (if (2 : ℚ) = 0 then [3, 4]
                    else List.map (fun v => v / 2) [3, 4]) :=
  cpu_rescale_degenerate_range ⟨[2], [3, 4], Dtype.float32⟩ 2 true
    (by
      intro v hv
      rcases List.mem_cons.mp hv with rfl | hv2
      · exact toF32_three
      rcases List.mem_cons.mp hv2 with rfl | hv3
      · exact toF32_four
      cases hv3)
    (Or.inl rfl)

/-- Claim C4, counterexample: with range (0, 0) and copy requested, the
float64 input [16777217.0] comes back as [16777216.0] — the float32
conversion performed by the copying step changes the value, so "the data is
numerically unchanged" fails for inputs whose values are not
binary32-representable. -/
theorem cpu_rescale_degenerate_zero_changes_float64 :
    CPUScaledTextureMixIn.scale_data_on_cpu ⟨[1], [16777217], Dtype.float64⟩
      (0, 0) true =
      Except.ok (⟨[1], [16777216], Dtype.float32⟩, ⟨[1], [16777217], Dtype.float64⟩) ∧
    (16777216 : ℚ) ≠ 16777217 := by
  refine ⟨?_, by norm_num⟩
  norm_num [CPUScaledTextureMixIn.scale_data_on_cpu,
            CPUScaledTextureMixIn.apply_clim_scale,
            CPUScaledTextureMixIn.final_f32_cast,
              should_cast_to_f32_f32, should_cast_to_f32_f64,
            toF32_16777217]

/-- Claim C7 (amended): after a rescale recorded DataRange (a, b), evaluating
`clim_normalized` with the clim still equal to (a, b) yields exactly (0, 1),
PROVIDED a is different from b; a degenerate recorded range a = b makes both
components divisions by zero (IEEE NaN, modelled as `none`), not (0, 1). -/
theorem cpu_clim_normalized_roundtrip (ndim : ℕ) (st st' : CPUState)
    (data out after : Arr) (copy : Bool) (a b : ℚ)
    (_hrun : CPUScaledTextureMixIn.scale_and_set_data ndim st data copy =
      Except.ok (st', out, after))
    (hdl : st'.data_limits = some (a, b)) (hclim : st'.clim = Clim.pair a b)
    (hab : a ≠ b) :
    CPUScaledTextureMixIn.clim_normalized st' = Except.ok (some 0, some 1) := by
  have hba : b - a ≠ 0 := sub_ne_zero.mpr (Ne.symm hab)
  simp [CPUScaledTextureMixIn.clim_normalized, hdl, hclim, qdiv, hba, div_self hba]

/-- Claim C7, witness: uploading float32 data [1, 3] with clim "auto" records
DataRange (1, 3) and clim (1, 3), and the normalized clim is (0, 1). -/
theorem cpu_clim_normalized_roundtrip_witness :
    CPUScaledTextureMixIn.clim_normalized
      ⟨Clim.pair 1 3, some Dtype.float32, some (1, 3)⟩ =
      Except.ok (some 0, some 1) :=
  cpu_clim_normalized_roundtrip 2 ⟨Clim.auto, none, none⟩
    ⟨Clim.pair 1 3, some Dtype.float32, some (1, 3)⟩
    ⟨[1, 2], [1, 3], Dtype.float32⟩ ⟨[1, 2], [0, 1], Dtype.float32⟩
    ⟨[1, 2], [1, 3], Dtype.float32⟩ true 1 3
    (by norm_num [CPUScaledTextureMixIn.scale_and_set_data,
                  CPUScaledTextureMixIn.single_channel_check,
                  CPUScaledTextureMixIn.resolve_clim,
                  CPUScaledTextureMixIn.scale_data_on_cpu,
                  CPUScaledTextureMixIn.apply_clim_scale,
                  CPUScaledTextureMixIn.final_f32_cast,
              should_cast_to_f32_f32, should_cast_to_f32_f64,
                  arr_min, arr_max, List.foldl, min_def, max_def, Arr.ndim,
                  toF32_one, toF32_three])
    rfl rfl (by norm_num)

/-- Claim C7, counterexample: constant float32 data [5] with clim "auto"
records the degenerate DataRange (5, 5); with the clim still (5, 5),
`clim_normalized` divides by zero and yields no finite pair — not (0, 1). -/
theorem cpu_clim_normalized_degenerate_not_unit :
    CPUScaledTextureMixIn.scale_and_set_data 2 ⟨Clim.auto, none, none⟩
      ⟨[1, 1], [5], Dtype.float32⟩ true =
      Except.ok (⟨Clim.pair 5 5, some Dtype.float32, some (5, 5)⟩,
                 ⟨[1, 1], [1], Dtype.float32⟩, ⟨[1, 1], [5], Dtype.float32⟩) ∧
    CPUScaledTextureMixIn.clim_normalized
      ⟨Clim.pair 5 5, some Dtype.float32, some (5, 5)⟩ = Except.ok (none, none) ∧
    (Except.ok (none, none) : Except Err (Option ℚ × Option ℚ)) ≠
      Except.ok (some 0, some 1) := by
  refine ⟨?_, ?_, by simp⟩
  · norm_num [CPUScaledTextureMixIn.scale_and_set_data,
              CPUScaledTextureMixIn.single_channel_check,
              CPUScaledTextureMixIn.resolve_clim,
              CPUScaledTextureMixIn.scale_data_on_cpu,
              CPUScaledTextureMixIn.apply_clim_scale,
              CPUScaledTextureMixIn.final_f32_cast,
              should_cast_to_f32_f32, should_cast_to_f32_f64,
              arr_min, arr_max, List.foldl, Arr.ndim, toF32_five]
  · norm_num [CPUScaledTextureMixIn.clim_normalized, qdiv]
